import Mathlib

/-!
Verification of the conflict/capacity core of the cihebackend scheduling
service.  The JavaScript services (`timeslot.service.js`,
`schedule.service.js`, `unit.service.js`) and the schedule/time-slot
controllers are shallowly embedded below: the Prisma store becomes an
in-memory `DB` of lists, each Prisma query becomes the corresponding
`List.filter`/`List.find?`, and every thrown `AppError(message, statusCode)`
becomes `Except.error`.  Time instants (JS `Date` values) are embedded as
integers (millisecond timestamps); JS falsiness of a number is `= 0` and of a
string is `= ""`; a nullable column is an `Option`.
-/

namespace Cihe

/-- Error type `AppError` from `utils/errors.js`: a message plus an HTTP status code. -/
structure AppError where
  message : String
  statusCode : Nat
deriving DecidableEq, Repr

/-- Enrollment status enum from the Prisma schema; the five values appear
literally throughout the services. -/
inductive EnrollmentStatus where
  | PENDING
  | APPROVED
  | WAITLISTED
  | REJECTED
  | WITHDRAWN
deriving DecidableEq, Repr

/-- Filter `status: { in: ['PENDING', 'APPROVED', 'WAITLISTED'] }` — the filter used
by every "active enrollments" query in the services. -/
def EnrollmentStatus.isNonTerminal : EnrollmentStatus → Bool
  | .PENDING => true
  | .APPROVED => true
  | .WAITLISTED => true
  | _ => false

/-- A `timeSlot` row: id, name, start/end instants, active flag. -/
structure TimeSlot where
  id : Nat
  name : String
  startTime : Int
  endTime : Int
  isActive : Bool
deriving DecidableEq, Repr

/-- A `day` row. -/
structure Day where
  id : Nat
  name : String
  dayOrder : Nat
deriving DecidableEq, Repr

/-- A `unit` (academic unit) row. -/
structure Unit where
  id : Nat
  unitCode : String
  title : String
  capacity : Int
  isActive : Bool
deriving DecidableEq, Repr

/-- A `schedule` row.  `maxCapacity` is nullable: `none` is SQL NULL. -/
structure Schedule where
  id : Nat
  unitId : Nat
  timeSlotId : Nat
  dayId : Nat
  tutorName : Option String
  location : Option String
  semester : String
  academicYear : Int
  maxCapacity : Option Int
  isActive : Bool
deriving DecidableEq, Repr

/-- An `enrollment` row (only the columns the embedded services read). -/
structure Enrollment where
  id : Nat
  scheduleId : Nat
  status : EnrollmentStatus
deriving DecidableEq, Repr

/-- The Prisma store: one list per table. -/
structure DB where
  timeSlots : List TimeSlot
  days : List Day
  units : List Unit
  schedules : List Schedule
  enrollments : List Enrollment
deriving DecidableEq, Repr

/-- Exclusion clause `if (excludeId) { where.NOT = { id: excludeId } }`: the NOT-clause is
added only when `excludeId` is truthy (non-null and non-zero), and then a
row passes iff its id differs from `excludeId`. -/
def notExcludedBy : Option Nat → Nat → Bool
  | none, _ => true
  | some e, i => if e ≠ 0 then i != e else true

/-- The four OR-clauses of the Prisma `where` in
`checkTimeSlotOverlap(startTime, endTime, …)` (`timeslot.service.js`),
evaluated on an existing row `s` against the candidate interval:
starts-during, ends-during, candidate-contains-existing,
existing-contains-candidate. -/
def overlapClauses (startTime endTime : Int) (s : TimeSlot) : Bool :=
  (decide (s.startTime ≤ startTime) && decide (s.endTime > startTime)) ||
  (decide (s.startTime < endTime) && decide (s.endTime ≥ endTime)) ||
  (decide (s.startTime ≥ startTime) && decide (s.endTime ≤ endTime)) ||
  (decide (s.startTime ≤ startTime) && decide (s.endTime ≥ endTime))

/-- Embedding of `TimeSlotService.checkTimeSlotOverlap(startTime, endTime, excludeId)`:
`prisma.timeSlot.findMany` over `isActive: true`, the four OR-clauses, and
the optional NOT-clause.  (The source then `select`s id/name/start/end; we
return the whole rows, which carry the selected fields.) -/
def checkTimeSlotOverlap (slots : List TimeSlot) (startTime endTime : Int)
    (excludeId : Option Nat) : List TimeSlot :=
  slots.filter fun s =>
    s.isActive && overlapClauses startTime endTime s && notExcludedBy excludeId s.id

/-- Embedding of `TimeSlotService.createTimeSlot({name, startTime, endTime})`: rejects
`start >= end` with 400, rejects a non-empty overlap check with 409, else
persists the slot (Prisma's schema default sets `isActive` to `true`).
`newId` stands for the auto-increment id the store would assign. -/
def createTimeSlot (db : DB) (name : String) (startTime endTime : Int)
    (newId : Nat) : Except AppError (DB × TimeSlot) :=
  if startTime ≥ endTime then
    .error ⟨"End time must be after start time", 400⟩
  else
    let overlapping := checkTimeSlotOverlap db.timeSlots startTime endTime none
    if overlapping.length > 0 then
      .error ⟨"Time slot overlaps with existing time slot", 409⟩
    else
      let slot : TimeSlot := ⟨newId, name, startTime, endTime, true⟩
      .ok ({ db with timeSlots := db.timeSlots ++ [slot] }, slot)

/-- The `schedules: { where: { isActive: true } }` include used by
`deleteTimeSlot`: active schedules referencing the slot. -/
def activeSchedulesOfSlot (db : DB) (slotId : Nat) : List Schedule :=
  db.schedules.filter fun s => s.timeSlotId == slotId && s.isActive

/-- The `enrollments: { where: { status: { in: [...] } } }` include:
non-terminal enrollments of one schedule. -/
def scheduleNonTerminalEnrollments (db : DB) (scheduleId : Nat) : List Enrollment :=
  db.enrollments.filter fun e => e.scheduleId == scheduleId && e.status.isNonTerminal

/-- Embedding of `TimeSlotService.deleteTimeSlot(id)`: 404 when the row is absent, 400
when any active schedule references it, else `prisma.timeSlot.delete`
(the row is physically removed). -/
def deleteTimeSlot (db : DB) (id : Nat) : Except AppError DB :=
  match db.timeSlots.find? (fun t => t.id == id) with
  | none => .error ⟨"Time slot not found", 404⟩
  | some _ =>
    if (activeSchedulesOfSlot db id).length > 0 then
      .error ⟨"Cannot delete time slot with active schedules", 400⟩
    else
      .ok { db with timeSlots := db.timeSlots.filter (fun t => t.id != id) }

/-- Embedding of `TimeSlotService.deactivateTimeSlot(id)`: 404 when absent, 400 when some
active schedule referencing the slot has a non-terminal enrollment
(`schedules.some(s => s.enrollments.length > 0)`), else
`update({ isActive: false })`. -/
def deactivateTimeSlot (db : DB) (id : Nat) : Except AppError DB :=
  match db.timeSlots.find? (fun t => t.id == id) with
  | none => .error ⟨"Time slot not found", 404⟩
  | some _ =>
    let hasActiveEnrollments :=
      (activeSchedulesOfSlot db id).any fun s =>
        (scheduleNonTerminalEnrollments db s.id).length > 0
    if hasActiveEnrollments then
      .error ⟨"Cannot deactivate time slot with active enrollments", 400⟩
    else
      .ok { db with
        timeSlots := db.timeSlots.map fun t =>
          if t.id == id then { t with isActive := false } else t }

/-! ## Schedule service (`schedule.service.js`) -/

/-- The `prisma.schedule.findMany` of
`ScheduleService.checkScheduleConflicts`: active schedules matching the
(timeSlot, day, semester, academicYear) tuple exactly, minus the optional
excluded id. -/
def scheduleConflictQuery (db : DB) (timeSlotId dayId : Nat) (semester : String)
    (academicYear : Int) (excludeId : Option Nat) : List Schedule :=
  db.schedules.filter fun s =>
    s.timeSlotId == timeSlotId && s.dayId == dayId && s.semester == semester &&
    s.academicYear == academicYear && s.isActive && notExcludedBy excludeId s.id

/-- Conflict line `` `${c.unit.unitCode} on ${c.day.name} at ${c.timeSlot.name}` ``: one
conflict line; the included relations are looked up by foreign key (the FK
always resolves in the store, `getD` only totalizes the lookup). -/
def conflictDetail (db : DB) (s : Schedule) : String :=
  (((db.units.find? fun u => u.id == s.unitId).map Unit.unitCode).getD "") ++
  " on " ++ (((db.days.find? fun d => d.id == s.dayId).map Day.name).getD "") ++
  " at " ++ (((db.timeSlots.find? fun t => t.id == s.timeSlotId).map TimeSlot.name).getD "")

/-- Embedding of `ScheduleService.checkScheduleConflicts(timeSlotId, dayId, semester,
academicYear, excludeId)`: throws 409 with the comma-joined details when the
query is non-empty, else resolves silently. -/
def checkScheduleConflicts (db : DB) (timeSlotId dayId : Nat) (semester : String)
    (academicYear : Int) (excludeId : Option Nat) : Except AppError PUnit.{1} :=
  let conflicts := scheduleConflictQuery db timeSlotId dayId semester academicYear excludeId
  if conflicts.length > 0 then
    .error ⟨"Schedule conflicts with existing schedules: " ++
      String.intercalate ", " (conflicts.map (conflictDetail db)), 409⟩
  else
    .ok PUnit.unit

/-- The body of `ScheduleService.createSchedule` after destructuring; id
fields already `parseInt`ed, so JS falsiness is `= 0` (numbers) / `= ""`
(the semester string). -/
structure CreateScheduleInput where
  unitId : Nat
  timeSlotId : Nat
  dayId : Nat
  tutorName : Option String
  location : Option String
  semester : String
  academicYear : Int
  maxCapacity : Option Int
deriving DecidableEq, Repr

/-- Embedding of `ScheduleService.createSchedule(data)`: required-field falsiness check,
unit/time-slot lookups requiring `isActive: true`, day lookup, exact-tuple
duplicate check (409 "already exists"), then `checkScheduleConflicts` with no
exclusion, then `prisma.schedule.create`.  `tutorName || null` and
`location || null` turn the empty string into NULL; `maxCapacity ?
parseInt(maxCapacity) : null` turns a falsy (absent or zero) capacity into
NULL.  `newId` is the auto-increment id. -/
def createSchedule (db : DB) (data : CreateScheduleInput) (newId : Nat) :
    Except AppError (DB × Schedule) := do
  if data.unitId = 0 ∨ data.timeSlotId = 0 ∨ data.dayId = 0 ∨
      data.semester = "" ∨ data.academicYear = 0 then
    throw ⟨"Missing required fields", 400⟩
  let _unit ← match db.units.find? (fun u => u.id == data.unitId && u.isActive) with
    | none => throw (⟨"Unit not found or inactive", 404⟩ : AppError)
    | some u => pure u
  let _timeSlot ← match db.timeSlots.find? (fun t => t.id == data.timeSlotId && t.isActive) with
    | none => throw (⟨"Time slot not found or inactive", 404⟩ : AppError)
    | some t => pure t
  let _day ← match db.days.find? (fun d => d.id == data.dayId) with
    | none => throw (⟨"Day not found", 404⟩ : AppError)
    | some d => pure d
  let existingSchedule := db.schedules.find? fun s =>
    s.unitId == data.unitId && s.timeSlotId == data.timeSlotId &&
    s.dayId == data.dayId && s.semester == data.semester &&
    s.academicYear == data.academicYear && s.isActive
  if existingSchedule.isSome then
    throw ⟨"Schedule already exists for this combination", 409⟩
  let _ ← checkScheduleConflicts db data.timeSlotId data.dayId data.semester data.academicYear none
  let schedule : Schedule :=
    { id := newId
      unitId := data.unitId
      timeSlotId := data.timeSlotId
      dayId := data.dayId
      tutorName := match data.tutorName with
        | some s => if s ≠ "" then some s else none
        | none => none
      location := match data.location with
        | some s => if s ≠ "" then some s else none
        | none => none
      semester := data.semester
      academicYear := data.academicYear
      maxCapacity := match data.maxCapacity with
        | some v => if v ≠ 0 then some v else none
        | none => none
      isActive := true }
  pure ({ db with schedules := db.schedules ++ [schedule] }, schedule)

/-- The update payload of `ScheduleService.updateSchedule`: `none` is a field
absent from the request body (JS `undefined`).  Numeric fields carry their
`parseInt`ed values. -/
structure UpdateScheduleInput where
  tutorName : Option String
  location : Option String
  maxCapacity : Option Int
  timeSlotId : Option Nat
  dayId : Option Nat
deriving DecidableEq, Repr

/-- JS truthiness of an optional id: present and non-zero. -/
def truthyId : Option Nat → Bool
  | none => false
  | some v => v != 0

/-- Embedding of `ScheduleService.updateSchedule(id, data)`: loads the schedule with its
non-terminal enrollments (404 when absent); rejects time/day changes while
non-terminal enrollments exist; rejects a new capacity strictly below the
current APPROVED count (message carries the count); validates a new time
slot (must exist and be active) and day; re-runs `checkScheduleConflicts`
with the merged key excluding the schedule's own id when time or day
changes; then persists the merged row. -/
def updateSchedule (db : DB) (id : Nat) (data : UpdateScheduleInput) :
    Except AppError (DB × Schedule) := do
  let schedule ← match db.schedules.find? (fun s => s.id == id) with
    | none => throw (⟨"Schedule not found", 404⟩ : AppError)
    | some s => pure s
  let nonTerminal := scheduleNonTerminalEnrollments db schedule.id
  let hasActiveEnrollments : Bool := nonTerminal.length > 0
  if hasActiveEnrollments && (truthyId data.timeSlotId || truthyId data.dayId) then
    throw ⟨"Cannot change time or day for schedule with active enrollments", 400⟩
  let newMaxCapacity : Option Int ← match data.maxCapacity with
    | none => pure none
    | some newCapacity =>
      let approvedEnrollments :=
        (nonTerminal.filter fun e => e.status == .APPROVED).length
      if newCapacity < approvedEnrollments then
        throw (⟨"Cannot set capacity below current approved enrollments (" ++
          toString approvedEnrollments ++ ")", 400⟩ : AppError)
      else
        pure (some newCapacity)
  let newTimeSlotId : Option Nat ←
    if truthyId data.timeSlotId && !hasActiveEnrollments then
      match db.timeSlots.find? (fun t => some t.id == data.timeSlotId && t.isActive) with
      | none => throw (⟨"Time slot not found or inactive", 404⟩ : AppError)
      | some _ => pure data.timeSlotId
    else
      pure none
  let newDayId : Option Nat ←
    if truthyId data.dayId && !hasActiveEnrollments then
      match db.days.find? (fun d => some d.id == data.dayId) with
      | none => throw (⟨"Day not found", 404⟩ : AppError)
      | some _ => pure data.dayId
    else
      pure none
  let _ ←
    if truthyId newTimeSlotId || truthyId newDayId then
      checkScheduleConflicts db (newTimeSlotId.getD schedule.timeSlotId)
        (newDayId.getD schedule.dayId) schedule.semester schedule.academicYear (some id)
    else
      pure PUnit.unit
  let updated : Schedule :=
    { schedule with
      tutorName := match data.tutorName with
        | some v => some v
        | none => schedule.tutorName
      location := match data.location with
        | some v => some v
        | none => schedule.location
      maxCapacity := match newMaxCapacity with
        | some v => some v
        | none => schedule.maxCapacity
      timeSlotId := (newTimeSlotId.getD schedule.timeSlotId)
      dayId := (newDayId.getD schedule.dayId) }
  pure ({ db with
    schedules := db.schedules.map fun s => if s.id == id then updated else s }, updated)

/-! ## Capacity & enrollment statistics (read paths) -/

/-- Effective capacity `schedule.maxCapacity || schedule.unit.capacity`: JS `||` falls back when
`maxCapacity` is NULL or zero (both falsy). -/
def effectiveCapacity : Option Int → Int → Int
  | some m, c => if m ≠ 0 then m else c
  | none, c => c

/-- Rounding `Math.round` on a finite value: round half toward positive infinity. -/
def jsRound (q : ℚ) : Int := ⌊q + 1 / 2⌋

/-- Utilization `Math.round((approved / capacity) * 100)` as written at
`schedule.service.js` lines 69 and 135: there is no zero-capacity guard in
these two read paths, and in JS a division by zero yields `NaN` (0/0) or
`Infinity`, which `Math.round` maps to itself — no finite integer results.
We model the finite outcome as `some (jsRound …)` and the unguarded
zero-capacity outcome as `none`. -/
def utilizationRate (approved : Nat) (capacity : Int) : Option Int :=
  if capacity = 0 then none
  else some (jsRound ((approved : ℚ) / (capacity : ℚ) * 100))

/-- Count `_count.enrollments` with `where: { status: 'APPROVED' }` for one
schedule. -/
def approvedCount (db : DB) (scheduleId : Nat) : Nat :=
  (db.enrollments.filter fun e => e.scheduleId == scheduleId && e.status == .APPROVED).length

/-- The `enrollmentStats` object attached to each schedule by
`getAllSchedules` (and, with the same formulas, by `getScheduleById`). -/
structure EnrollmentStats where
  approvedEnrollments : Nat
  capacity : Int
  availableSpots : Int
  utilizationRate : Option Int
deriving DecidableEq, Repr

/-- The per-schedule statistics computation shared by the list read
(`getAllSchedules`, lines 63–71) and the detail read (`getScheduleById`,
lines 133–135): effective capacity, available spots, utilization rate.  The
unit is joined by foreign key. -/
def scheduleEnrollmentStats (db : DB) (s : Schedule) : EnrollmentStats :=
  let unitCapacity := (((db.units.find? fun u => u.id == s.unitId).map Unit.capacity).getD 0)
  let capacity := effectiveCapacity s.maxCapacity unitCapacity
  let approved := approvedCount db s.id
  { approvedEnrollments := approved
    capacity := capacity
    availableSpots := capacity - approved
    utilizationRate := utilizationRate approved capacity }

/-- Embedding of `ScheduleService.getAllSchedules` restricted to its stats-bearing core:
the `where` always demands `isActive: true` (the optional filters and the
skip/take pagination only select a subset of this list), and each returned
schedule carries `enrollmentStats`. -/
def getAllSchedulesStats (db : DB) : List (Schedule × EnrollmentStats) :=
  (db.schedules.filter fun s => s.isActive).map fun s => (s, scheduleEnrollmentStats db s)

/-! ## Controllers (`timeslot.controller.js` / schedule controller) -/

/-- The JSON payload of the conflict-probe endpoint
`ScheduleController.checkScheduleConflicts`. -/
structure ProbeResponse where
  status : Nat
  success : Bool
  message : String
  hasConflict : Bool
  conflictMessage : Option String
deriving DecidableEq, Repr

/-- Embedding of `ScheduleController.checkScheduleConflicts`: 400 when any of the four
required query keys is falsy; otherwise the service call's `ConflictError`
(status 409) is converted into a 200 body with `hasConflict: true` and the
conflict message, a silent resolution yields 200 with `hasConflict: false`,
and any other error is re-thrown to the error middleware
(`Except.error`). -/
def controllerCheckScheduleConflicts (db : DB) (timeSlotId dayId : Nat)
    (semester : String) (academicYear : Int) (excludeId : Option Nat) :
    Except AppError ProbeResponse :=
  if timeSlotId = 0 ∨ dayId = 0 ∨ semester = "" ∨ academicYear = 0 then
    .error ⟨"Time slot ID, day ID, semester, and academic year are required", 400⟩
  else
    match checkScheduleConflicts db timeSlotId dayId semester academicYear excludeId with
    | .ok _ =>
      .ok ⟨200, true, "No schedule conflicts found", false, none⟩
    | .error e =>
      if e.statusCode == 409 then
        .ok ⟨200, true, "Schedule conflict detected", true, some e.message⟩
      else
        .error e

/-- The controller-level positive-capacity validation of
`ScheduleController.createSchedule`: `if (maxCapacity &&
parseInt(maxCapacity) <= 0) throw` — it fires only when `maxCapacity` is
truthy (present and non-zero) AND its parsed value is ≤ 0. -/
def capacityValidationRejects : Option Int → Bool
  | none => false
  | some v => v != 0 && decide (v ≤ 0)

/-- Embedding of `ScheduleController.createSchedule`: required-field check, the
positive-capacity check above, then the service call. -/
def controllerCreateSchedule (db : DB) (data : CreateScheduleInput) (newId : Nat) :
    Except AppError (DB × Schedule) :=
  if data.unitId = 0 ∨ data.timeSlotId = 0 ∨ data.dayId = 0 ∨
      data.semester = "" ∨ data.academicYear = 0 then
    .error ⟨"Unit ID, time slot ID, day ID, semester, and academic year are required", 400⟩
  else if capacityValidationRejects data.maxCapacity then
    .error ⟨"Max capacity must be a positive number", 400⟩
  else
    createSchedule db data newId

/-- Specification predicate: some active schedule matches the exact
(unit, timeSlot, day, semester, academicYear) tuple of the creation input —
the condition of the "already exists" duplicate check. -/
def exactDuplicateExists (db : DB) (data : CreateScheduleInput) : Prop :=
  ∃ s ∈ db.schedules, s.unitId = data.unitId ∧ s.timeSlotId = data.timeSlotId ∧
    s.dayId = data.dayId ∧ s.semester = data.semester ∧
    s.academicYear = data.academicYear ∧ s.isActive = true

/-- Specification predicate: some active schedule of any unit occupies the
(timeSlot, day, semester, academicYear) tuple — the broader occupancy
conflict. -/
def slotOccupied (db : DB) (timeSlotId dayId : Nat) (semester : String)
    (academicYear : Int) : Prop :=
  ∃ s ∈ db.schedules, s.timeSlotId = timeSlotId ∧ s.dayId = dayId ∧
    s.semester = semester ∧ s.academicYear = academicYear ∧ s.isActive = true

instance (db : DB) (data : CreateScheduleInput) :
    Decidable (exactDuplicateExists db data) := by
  unfold exactDuplicateExists
  infer_instance

instance (db : DB) (timeSlotId dayId : Nat) (semester : String)
    (academicYear : Int) :
    Decidable (slotOccupied db timeSlotId dayId semester academicYear) := by
  unfold slotOccupied
  infer_instance

/-! ## Concrete store states used by the witness theorems -/

/-- Slot 9:00–10:00 (minutes from midnight), active. -/
def slotA : TimeSlot := ⟨1, "A", 540, 600, true⟩

/-- Slot 10:00–11:00, active. -/
def slotB : TimeSlot := ⟨2, "B", 600, 660, true⟩

/-- Slot 9:30–10:30, active (overlaps `slotA`). -/
def slotC : TimeSlot := ⟨3, "C", 570, 630, true⟩

/-- Slot 8:20–11:40, inactive. -/
def slotD : TimeSlot := ⟨4, "D", 500, 700, false⟩

/-- Monday. -/
def dayMon : Day := ⟨1, "Monday", 1⟩

/-- A unit with base capacity 30, active. -/
def unitU1 : Unit := ⟨1, "U1", "Unit One", 30, true⟩

/-- A second unit, capacity 25, active. -/
def unitU2 : Unit := ⟨2, "U2", "Unit Two", 25, true⟩

/-- A unit whose base capacity is 1 (for the utilization counterexample). -/
def unitSmall : Unit := ⟨3, "U3", "Unit Three", 1, true⟩

/-- A unit whose base capacity is 0 (for the zero-capacity read path). -/
def unitZero : Unit := ⟨4, "U4", "Unit Four", 0, true⟩

/-- An active schedule: unit 1, slot 1, Monday, S1/2024, no capacity override. -/
def schedMon : Schedule := ⟨1, 1, 1, 1, none, none, "S1", 2024, none, true⟩

/-- An active schedule of the small unit (id 3), slot 1, Monday, S1/2024. -/
def schedSmall : Schedule := ⟨2, 3, 1, 1, none, none, "S1", 2024, none, true⟩

/-- An active schedule of the zero-capacity unit. -/
def schedZero : Schedule := ⟨3, 4, 2, 1, none, none, "S1", 2024, none, true⟩

/-- An approved enrollment against schedule 1. -/
def enrApproved1 : Enrollment := ⟨1, 1, .APPROVED⟩

/-- Approved enrollments against schedule 2 (two of them: over capacity 1). -/
def enrSmall1 : Enrollment := ⟨2, 2, .APPROVED⟩

/-- Second approved enrollment against schedule 2. -/
def enrSmall2 : Enrollment := ⟨3, 2, .APPROVED⟩

/-- A pending enrollment against schedule 1. -/
def enrPending1 : Enrollment := ⟨4, 1, .PENDING⟩

/-- Store with one occupied Monday slot and a free slot 2, no enrollments. -/
def dbBase : DB := ⟨[slotA, slotB, slotD], [dayMon], [unitU1, unitU2], [schedMon], []⟩

/-- Store whose schedule 1 has a pending and an approved enrollment. -/
def dbEnrolled : DB :=
  ⟨[slotA, slotB, slotD], [dayMon], [unitU1, unitU2], [schedMon], [enrApproved1, enrPending1]⟩

/-- Store for the utilization counterexample: capacity 1, two approved. -/
def dbOver : DB := ⟨[slotA, slotB], [dayMon], [unitSmall], [schedSmall], [enrSmall1, enrSmall2]⟩

/-- Store with a zero-capacity unit behind schedule 3. -/
def dbZero : DB := ⟨[slotA, slotB], [dayMon], [unitZero], [schedZero], []⟩

/-- Store with no schedules at all (free for creation). -/
def dbEmptySched : DB := ⟨[slotA, slotB], [dayMon], [unitU1, unitU2], [], []⟩

/-! ## Helper lemmas -/

/-- Membership in the overlap query unfolded to propositional conditions. -/
theorem mem_checkTimeSlotOverlap {slots : List TimeSlot} {s e : Int}
    {ex : Option Nat} {t : TimeSlot} :
    t ∈ checkTimeSlotOverlap slots s e ex ↔
      t ∈ slots ∧ t.isActive = true ∧ overlapClauses s e t = true ∧
      notExcludedBy ex t.id = true := by
  simp [checkTimeSlotOverlap, List.mem_filter, Bool.and_eq_true, and_assoc]

/-- The four OR-clauses as a propositional disjunction. -/
theorem overlapClauses_iff {s e : Int} {t : TimeSlot} :
    overlapClauses s e t = true ↔
      ((t.startTime ≤ s ∧ t.endTime > s) ∨ (t.startTime < e ∧ t.endTime ≥ e) ∨
       (t.startTime ≥ s ∧ t.endTime ≤ e) ∨ (t.startTime ≤ s ∧ t.endTime ≥ e)) := by
  simp [overlapClauses, Bool.or_eq_true, Bool.and_eq_true, decide_eq_true_eq, or_assoc]

/-- Membership in the schedule conflict query unfolded. -/
theorem mem_scheduleConflictQuery {db : DB} {tsId dayId : Nat} {sem : String}
    {yr : Int} {ex : Option Nat} {s : Schedule} :
    s ∈ scheduleConflictQuery db tsId dayId sem yr ex ↔
      s ∈ db.schedules ∧ s.timeSlotId = tsId ∧ s.dayId = dayId ∧
      s.semester = sem ∧ s.academicYear = yr ∧ s.isActive = true ∧
      notExcludedBy ex s.id = true := by
  simp [scheduleConflictQuery, List.mem_filter, Bool.and_eq_true, and_assoc]

/-- Every error the embedded conflict check produces carries status 409. -/
theorem checkScheduleConflicts_error_code {db : DB} {tsId dayId : Nat}
    {sem : String} {yr : Int} {ex : Option Nat} {e : AppError}
    (h : checkScheduleConflicts db tsId dayId sem yr ex = .error e) :
    e.statusCode = 409 := by
  unfold checkScheduleConflicts at h
  by_cases hc : (scheduleConflictQuery db tsId dayId sem yr ex).length > 0
  · rw [if_pos hc] at h
    cases h
    rfl
  · rw [if_neg hc] at h
    cases h

/-- The conflict check resolves silently iff the query is empty. -/
theorem checkScheduleConflicts_ok_iff {db : DB} {tsId dayId : Nat}
    {sem : String} {yr : Int} {ex : Option Nat} :
    checkScheduleConflicts db tsId dayId sem yr ex = .ok PUnit.unit ↔
      scheduleConflictQuery db tsId dayId sem yr ex = [] := by
  unfold checkScheduleConflicts
  by_cases hc : (scheduleConflictQuery db tsId dayId sem yr ex).length > 0
  · rw [if_pos hc]
    constructor
    · intro h
      cases h
    · intro h
      rw [h] at hc
      simp at hc
  · rw [if_neg hc]
    have h0 : (scheduleConflictQuery db tsId dayId sem yr ex).length = 0 := by omega
    simp [List.length_eq_zero.mp h0]

/-- The duplicate predicate matches the `findFirst` of `createSchedule`. -/
theorem exactDuplicateExists_iff_findSome {db : DB} {data : CreateScheduleInput} :
    exactDuplicateExists db data ↔
      (db.schedules.find? fun s =>
        s.unitId == data.unitId && s.timeSlotId == data.timeSlotId &&
        s.dayId == data.dayId && s.semester == data.semester &&
        s.academicYear == data.academicYear && s.isActive).isSome = true := by
  rw [List.find?_isSome]
  simp [exactDuplicateExists, Bool.and_eq_true, and_assoc]

/-- The occupancy predicate matches a non-empty unexcluded conflict query. -/
theorem slotOccupied_iff_query_ne_nil {db : DB} {tsId dayId : Nat} {sem : String}
    {yr : Int} :
    slotOccupied db tsId dayId sem yr ↔
      scheduleConflictQuery db tsId dayId sem yr none ≠ [] := by
  constructor
  · intro h
    obtain ⟨s, hs, h1, h2, h3, h4, h5⟩ := h
    exact List.ne_nil_of_mem (mem_scheduleConflictQuery.mpr ⟨hs, h1, h2, h3, h4, h5, rfl⟩)
  · intro h
    obtain ⟨s, hs⟩ := List.exists_mem_of_ne_nil _ h
    obtain ⟨hmem, h1, h2, h3, h4, h5, -⟩ := mem_scheduleConflictQuery.mp hs
    exact ⟨s, hmem, h1, h2, h3, h4, h5⟩

/-- Explicit error form of the conflict check on a non-empty query. -/
theorem checkScheduleConflicts_of_ne_nil {db : DB} {tsId dayId : Nat}
    {sem : String} {yr : Int} {ex : Option Nat}
    (h : scheduleConflictQuery db tsId dayId sem yr ex ≠ []) :
    checkScheduleConflicts db tsId dayId sem yr ex =
      .error ⟨"Schedule conflicts with existing schedules: " ++
        String.intercalate ", "
          ((scheduleConflictQuery db tsId dayId sem yr ex).map (conflictDetail db)), 409⟩ := by
  unfold checkScheduleConflicts
  rw [if_pos (List.length_pos.mpr h)]

/-! ## Claims -/

/-- C1: for a candidate half-open interval `[s, e)` and any stored slot `B`
with half-open interval `[B.startTime, B.endTime)` (both well-formed, start
before end): (1) when `e ≤ B.startTime` or `B.endTime ≤ s` the overlap check
does not report `B` — an interval ending exactly when another begins is not
an overlap; (2) when the two intervals share an instant strictly inside both
(a rational time point, since instants are arbitrary timestamps) and `B` is
an active stored row, the check reports `B`; (3) only rows whose active flag
is `true` ever appear in the check's result. -/
theorem overlapCheck_halfOpen_semantics (slots : List TimeSlot) (s e : Int)
    (B : TimeSlot) (hse : s < e) (hB : B.startTime < B.endTime) :
    ((e ≤ B.startTime ∨ B.endTime ≤ s) → B ∉ checkTimeSlotOverlap slots s e none) ∧
    (B ∈ slots → B.isActive = true →
      (∃ t : ℚ, (s : ℚ) < t ∧ t < (e : ℚ) ∧
        (B.startTime : ℚ) < t ∧ t < (B.endTime : ℚ)) →
      B ∈ checkTimeSlotOverlap slots s e none) ∧
    (∀ C ∈ checkTimeSlotOverlap slots s e none, C.isActive = true) := by
  refine ⟨?_, ?_, ?_⟩
  · intro hsep hmem
    obtain ⟨-, -, hcl, -⟩ := mem_checkTimeSlotOverlap.mp hmem
    rw [overlapClauses_iff] at hcl
    omega
  · intro hmem hact ⟨t, ht1, ht2, ht3, ht4⟩
    have h1 : B.startTime < e := by exact_mod_cast ht3.trans ht2
    have h2 : s < B.endTime := by exact_mod_cast ht1.trans ht4
    refine mem_checkTimeSlotOverlap.mpr ⟨hmem, hact, ?_, rfl⟩
    rw [overlapClauses_iff]
    omega
  · intro C hC
    exact (mem_checkTimeSlotOverlap.mp hC).2.1

/-- Witness for C1: slot B (=`[600,660)`) touching the candidate `[540,600)`
is not reported; slot A (=`[540,600)`) sharing instant 590 with the candidate
`[570,630)` is reported; the inactive slot D is never reported even though
its interval contains the candidate `[545,550)`. -/
theorem overlapCheck_halfOpen_semantics_witness :
    slotB ∉ checkTimeSlotOverlap [slotA, slotB, slotD] 540 600 none ∧
    slotA ∈ checkTimeSlotOverlap [slotA, slotB, slotD] 570 630 none ∧
    slotD ∉ checkTimeSlotOverlap [slotA, slotB, slotD] 545 550 none := by
  refine ⟨?_, ?_, ?_⟩
  · exact (overlapCheck_halfOpen_semantics [slotA, slotB, slotD] 540 600 slotB
      (by norm_num) (by norm_num [slotB])).1 (by norm_num [slotB])
  · exact (overlapCheck_halfOpen_semantics [slotA, slotB, slotD] 570 630 slotA
      (by norm_num) (by norm_num [slotA])).2.1 (by simp)
      (by norm_num [slotA]) ⟨590, by norm_num [slotA]⟩
  · intro h
    have := (overlapCheck_halfOpen_semantics [slotA, slotB, slotD] 545 550 slotD
      (by norm_num) (by norm_num [slotD])).2.2 slotD h
    simp [slotD] at this

/-- C9: `createTimeSlot(name, start, end)` fails with a 400 validation error
whenever `start ≥ end`; otherwise it runs the overlap check over the stored
slots with no exclusion and fails 409 when some active slot satisfies the
overlap clauses; only when both checks pass is the slot appended to the
store, with its active flag `true`. -/
theorem createTimeSlot_checks (db : DB) (name : String) (s e : Int) (newId : Nat) :
    (s ≥ e → createTimeSlot db name s e newId =
      .error ⟨"End time must be after start time", 400⟩) ∧
    (s < e → (∃ t ∈ db.timeSlots, t.isActive = true ∧ overlapClauses s e t = true) →
      createTimeSlot db name s e newId =
        .error ⟨"Time slot overlaps with existing time slot", 409⟩) ∧
    (s < e → (∀ t ∈ db.timeSlots, t.isActive = true → overlapClauses s e t = false) →
      createTimeSlot db name s e newId =
        .ok ({ db with timeSlots := db.timeSlots ++ [⟨newId, name, s, e, true⟩] },
          ⟨newId, name, s, e, true⟩)) := by
  refine ⟨?_, ?_, ?_⟩
  · intro h
    simp [createTimeSlot, h]
  · intro hse ht
    obtain ⟨t, htmem, hact, hcl⟩ := ht
    have hne : t ∈ checkTimeSlotOverlap db.timeSlots s e none :=
      mem_checkTimeSlotOverlap.mpr ⟨htmem, hact, hcl, rfl⟩
    have hlen : 0 < (checkTimeSlotOverlap db.timeSlots s e none).length :=
      List.length_pos.mpr (List.ne_nil_of_mem hne)
    simp [createTimeSlot, not_le.mpr hse, hlen]
  · intro hse hnone
    have hnil : checkTimeSlotOverlap db.timeSlots s e none = [] := by
      apply List.filter_eq_nil_iff.mpr
      intro t htmem
      by_cases hact : t.isActive = true
      · simp [hact, hnone t htmem hact]
      · have hf : t.isActive = false := by simpa using hact
        simp [hf]
    simp [createTimeSlot, not_le.mpr hse, hnil]

/-- Witness for C9: a reversed interval is rejected 400; an interval
overlapping active slot A is rejected 409; a free evening interval is
persisted with the active flag set. -/
theorem createTimeSlot_checks_witness :
    createTimeSlot dbBase "X" 700 650 9 =
      .error ⟨"End time must be after start time", 400⟩ ∧
    createTimeSlot dbBase "X" 570 630 9 =
      .error ⟨"Time slot overlaps with existing time slot", 409⟩ ∧
    createTimeSlot dbBase "X" 700 760 9 =
      .ok ({ dbBase with timeSlots := dbBase.timeSlots ++ [⟨9, "X", 700, 760, true⟩] },
        ⟨9, "X", 700, 760, true⟩) := by
  refine ⟨?_, ?_, ?_⟩
  · exact (createTimeSlot_checks dbBase "X" 700 650 9).1 (by norm_num)
  · exact (createTimeSlot_checks dbBase "X" 570 630 9).2.1 (by norm_num)
      ⟨slotA, by simp [dbBase], by decide, by decide⟩
  · exact (createTimeSlot_checks dbBase "X" 700 760 9).2.2 (by norm_num) (by decide)

/-- C8: an overlap check or schedule-conflict query carrying
`excludeId = r` (a real id, hence non-zero) never reports the record whose
identity is `r`: a record checked against a collection containing itself is
never its own conflict. -/
theorem excludeId_never_reports_self (db : DB) (s e : Int) (tsId dId : Nat)
    (sem : String) (yr : Int) (r : Nat) (hr : r ≠ 0) :
    (∀ C ∈ checkTimeSlotOverlap db.timeSlots s e (some r), C.id ≠ r) ∧
    (∀ C ∈ scheduleConflictQuery db tsId dId sem yr (some r), C.id ≠ r) := by
  constructor
  · intro C hC
    have hex := (mem_checkTimeSlotOverlap.mp hC).2.2.2
    simpa [notExcludedBy, hr] using hex
  · intro C hC
    have hex := (mem_scheduleConflictQuery.mp hC).2.2.2.2.2.2
    simpa [notExcludedBy, hr] using hex

/-- Witness for C8: slot A conflicts with its own interval when no exclusion
is given, but vanishes from the result once its id 1 is excluded; likewise
schedule 1 occupies its own (slot, day, semester, year) key but is not
reported when excluded by id. -/
theorem excludeId_never_reports_self_witness :
    slotA ∈ checkTimeSlotOverlap dbBase.timeSlots 540 600 none ∧
    slotA ∉ checkTimeSlotOverlap dbBase.timeSlots 540 600 (some 1) ∧
    schedMon ∈ scheduleConflictQuery dbBase 1 1 "S1" 2024 none ∧
    schedMon ∉ scheduleConflictQuery dbBase 1 1 "S1" 2024 (some 1) := by
  refine ⟨by decide, ?_, by decide, ?_⟩
  · intro h
    exact (excludeId_never_reports_self dbBase 540 600 1 1 "S1" 2024 1
      (by decide)).1 slotA h rfl
  · intro h
    exact (excludeId_never_reports_self dbBase 540 600 1 1 "S1" 2024 1
      (by decide)).2 schedMon h rfl

/-- C6: time-slot hard delete fails 404 when the slot is absent, fails with
the precondition error (status 400) when any active schedule references the
slot, and otherwise removes the row (no row with that id remains);
deactivate fails 404 when absent, fails with the precondition error when
some referencing active schedule has a non-terminal enrollment, and
otherwise clears the slot's active flag while the schedules table is left
untouched. -/
theorem timeSlot_delete_deactivate_guards (db : DB) (id : Nat) :
    (db.timeSlots.find? (fun t => t.id == id) = none →
      deleteTimeSlot db id = .error ⟨"Time slot not found", 404⟩ ∧
      deactivateTimeSlot db id = .error ⟨"Time slot not found", 404⟩) ∧
    (∀ ts, db.timeSlots.find? (fun t => t.id == id) = some ts →
      (activeSchedulesOfSlot db id ≠ [] →
        deleteTimeSlot db id =
          .error ⟨"Cannot delete time slot with active schedules", 400⟩) ∧
      (activeSchedulesOfSlot db id = [] →
        deleteTimeSlot db id =
          .ok { db with timeSlots := db.timeSlots.filter (fun t => t.id != id) } ∧
        ∀ t ∈ db.timeSlots.filter (fun t => t.id != id), t.id ≠ id) ∧
      ((∃ sc ∈ activeSchedulesOfSlot db id,
          scheduleNonTerminalEnrollments db sc.id ≠ []) →
        deactivateTimeSlot db id =
          .error ⟨"Cannot deactivate time slot with active enrollments", 400⟩) ∧
      ((∀ sc ∈ activeSchedulesOfSlot db id,
          scheduleNonTerminalEnrollments db sc.id = []) →
        deactivateTimeSlot db id =
          .ok { db with timeSlots :=
            db.timeSlots.map (fun t => if t.id == id then { t with isActive := false } else t) } ∧
        (∀ t ∈ db.timeSlots.map
            (fun t => if t.id == id then { t with isActive := false } else t),
          t.id = id → t.isActive = false))) := by
  constructor
  · intro h
    exact ⟨by simp [deleteTimeSlot, h], by simp [deactivateTimeSlot, h]⟩
  · intro ts hf
    refine ⟨?_, ?_, ?_, ?_⟩
    · intro hne
      have hlen : 0 < (activeSchedulesOfSlot db id).length :=
        List.length_pos.mpr hne
      simp [deleteTimeSlot, hf, hlen]
    · intro hnil
      refine ⟨by simp [deleteTimeSlot, hf, hnil], ?_⟩
      intro t ht
      have := (List.mem_filter.mp ht).2
      simpa using this
    · intro hex
      obtain ⟨sc, hscmem, hscne⟩ := hex
      have hany : ((activeSchedulesOfSlot db id).any fun s =>
          (scheduleNonTerminalEnrollments db s.id).length > 0) = true := by
        refine List.any_eq_true.mpr ⟨sc, hscmem, ?_⟩
        simpa using List.length_pos.mpr hscne
      simp [deactivateTimeSlot, hf, hany]
    · intro hall
      have hany : ((activeSchedulesOfSlot db id).any fun s =>
          (scheduleNonTerminalEnrollments db s.id).length > 0) = false := by
        rw [List.any_eq_false]
        intro sc hsc
        simp [hall sc hsc]
      refine ⟨by simp [deactivateTimeSlot, hf, hany], ?_⟩
      intro t ht hid
      obtain ⟨t0, ht0, rfl⟩ := List.mem_map.mp ht
      by_cases h0 : t0.id == id
      · simp [h0]
      · rw [if_neg h0] at hid ⊢
        simp at h0
        exact absurd hid h0

/-- Witness for C6: id 99 is absent (double 404); slot 1 carries an active
schedule so hard delete is blocked; slot 2 is unreferenced so hard delete
removes it; in the enrolled store slot 1's schedule has non-terminal
enrollments so deactivation is blocked; in the enrollment-free store slot 1
deactivates, clearing only its active flag. -/
theorem timeSlot_delete_deactivate_guards_witness :
    deleteTimeSlot dbBase 99 = .error ⟨"Time slot not found", 404⟩ ∧
    deactivateTimeSlot dbBase 99 = .error ⟨"Time slot not found", 404⟩ ∧
    deleteTimeSlot dbBase 1 =
      .error ⟨"Cannot delete time slot with active schedules", 400⟩ ∧
    deleteTimeSlot dbBase 2 =
      .ok { dbBase with timeSlots := dbBase.timeSlots.filter (fun t => t.id != 2) } ∧
    deactivateTimeSlot dbEnrolled 1 =
      .error ⟨"Cannot deactivate time slot with active enrollments", 400⟩ ∧
    deactivateTimeSlot dbBase 1 =
      .ok { dbBase with timeSlots :=
        dbBase.timeSlots.map (fun t => if t.id == 1 then { t with isActive := false } else t) } := by
  have habs := (timeSlot_delete_deactivate_guards dbBase 99).1 (by decide)
  refine ⟨habs.1, habs.2, ?_, ?_, ?_, ?_⟩
  · exact ((timeSlot_delete_deactivate_guards dbBase 1).2 slotA (by decide)).1
      (by decide)
  · exact (((timeSlot_delete_deactivate_guards dbBase 2).2 slotB (by decide)).2.1
      (by decide)).1
  · exact ((timeSlot_delete_deactivate_guards dbEnrolled 1).2 slotA (by decide)).2.2.1
      ⟨schedMon, by decide, by decide⟩
  · exact (((timeSlot_delete_deactivate_guards dbBase 1).2 slotA (by decide)).2.2.2
      (by decide)).1

/-- C2: when a `createSchedule` call passes the required-field check and its
unit, time slot and day lookups succeed: an active schedule on the exact
(unit, timeSlot, day, semester, academicYear) tuple makes creation fail with
the specific 409 "Schedule already exists for this combination"; otherwise
an active schedule of any unit on the same (timeSlot, day, semester,
academicYear) makes it fail with the general occupancy 409; and only when
both checks pass is the record appended to the store. -/
theorem createSchedule_duplicate_then_occupancy (db : DB)
    (data : CreateScheduleInput) (newId : Nat)
    (hreq : ¬(data.unitId = 0 ∨ data.timeSlotId = 0 ∨ data.dayId = 0 ∨
      data.semester = "" ∨ data.academicYear = 0))
    (hu : (db.units.find? fun u => u.id == data.unitId && u.isActive).isSome = true)
    (hts : (db.timeSlots.find? fun t =>
      t.id == data.timeSlotId && t.isActive).isSome = true)
    (hd : (db.days.find? fun d => d.id == data.dayId).isSome = true) :
    (exactDuplicateExists db data →
      createSchedule db data newId =
        .error ⟨"Schedule already exists for this combination", 409⟩) ∧
    (¬ exactDuplicateExists db data →
      slotOccupied db data.timeSlotId data.dayId data.semester data.academicYear →
      ∃ msg, createSchedule db data newId = .error ⟨msg, 409⟩) ∧
    (¬ exactDuplicateExists db data →
      ¬ slotOccupied db data.timeSlotId data.dayId data.semester data.academicYear →
      ∃ sched, createSchedule db data newId =
        .ok ({ db with schedules := db.schedules ++ [sched] }, sched)) := by
  obtain ⟨u, hu⟩ := Option.isSome_iff_exists.mp hu
  obtain ⟨t, hts⟩ := Option.isSome_iff_exists.mp hts
  obtain ⟨d, hd⟩ := Option.isSome_iff_exists.mp hd
  refine ⟨?_, ?_, ?_⟩
  · intro hdup
    obtain ⟨sdup, hfind⟩ := Option.isSome_iff_exists.mp
      (exactDuplicateExists_iff_findSome.mp hdup)
    simp [createSchedule, if_neg hreq, hu, hts, hd, hfind, throw, throwThe,
      MonadExceptOf.throw, Bind.bind, Except.bind, Functor.map, Except.map,
      Pure.pure, Except.pure]
  · intro hdupn hocc
    have hfind : (db.schedules.find? fun s =>
        s.unitId == data.unitId && s.timeSlotId == data.timeSlotId &&
        s.dayId == data.dayId && s.semester == data.semester &&
        s.academicYear == data.academicYear && s.isActive) = none := by
      cases hcase : db.schedules.find? fun s =>
          s.unitId == data.unitId && s.timeSlotId == data.timeSlotId &&
          s.dayId == data.dayId && s.semester == data.semester &&
          s.academicYear == data.academicYear && s.isActive
      · rfl
      · exact absurd (exactDuplicateExists_iff_findSome.mpr (by simp [hcase])) hdupn
    have hq := slotOccupied_iff_query_ne_nil.mp hocc
    refine ⟨"Schedule conflicts with existing schedules: " ++
      String.intercalate ", "
        ((scheduleConflictQuery db data.timeSlotId data.dayId data.semester
          data.academicYear none).map (conflictDetail db)), ?_⟩
    simp [createSchedule, if_neg hreq, hu, hts, hd, hfind,
      checkScheduleConflicts_of_ne_nil hq, throw, throwThe,
      MonadExceptOf.throw, Bind.bind, Except.bind, Functor.map, Except.map,
      Pure.pure, Except.pure]
  · intro hdupn hoccn
    have hfind : (db.schedules.find? fun s =>
        s.unitId == data.unitId && s.timeSlotId == data.timeSlotId &&
        s.dayId == data.dayId && s.semester == data.semester &&
        s.academicYear == data.academicYear && s.isActive) = none := by
      cases hcase : db.schedules.find? fun s =>
          s.unitId == data.unitId && s.timeSlotId == data.timeSlotId &&
          s.dayId == data.dayId && s.semester == data.semester &&
          s.academicYear == data.academicYear && s.isActive
      · rfl
      · exact absurd (exactDuplicateExists_iff_findSome.mpr (by simp [hcase])) hdupn
    have hq : scheduleConflictQuery db data.timeSlotId data.dayId data.semester
        data.academicYear none = [] := by
      by_contra hne
      exact hoccn (slotOccupied_iff_query_ne_nil.mpr hne)
    have hok := checkScheduleConflicts_ok_iff.mpr hq
    refine ⟨{ id := newId
              unitId := data.unitId
              timeSlotId := data.timeSlotId
              dayId := data.dayId
              tutorName := match data.tutorName with
                | some s => if s ≠ "" then some s else none
                | none => none
              location := match data.location with
                | some s => if s ≠ "" then some s else none
                | none => none
              semester := data.semester
              academicYear := data.academicYear
              maxCapacity := match data.maxCapacity with
                | some v => if v ≠ 0 then some v else none
                | none => none
              isActive := true }, ?_⟩
    simp [createSchedule, if_neg hreq, hu, hts, hd, hfind, hok, throw, throwThe,
      MonadExceptOf.throw, Bind.bind, Except.bind, Functor.map, Except.map,
      Pure.pure, Except.pure]

/-- Witness for C2: against the base store (unit 1 schedules slot 1 on
Monday S1/2024), re-creating the exact tuple yields the specific duplicate
409; unit 2 on the same slot/day/semester/year trips the general occupancy
409 naming the occupant; unit 2 on the free slot 2 is persisted. -/
theorem createSchedule_duplicate_then_occupancy_witness :
    createSchedule dbBase ⟨1, 1, 1, none, none, "S1", 2024, none⟩ 5 =
      .error ⟨"Schedule already exists for this combination", 409⟩ ∧
    createSchedule dbBase ⟨2, 1, 1, none, none, "S1", 2024, none⟩ 5 =
      .error ⟨"Schedule conflicts with existing schedules: U1 on Monday at A", 409⟩ ∧
    createSchedule dbBase ⟨2, 2, 1, none, none, "S1", 2024, none⟩ 5 =
      .ok ({ dbBase with schedules :=
          dbBase.schedules ++ [⟨5, 2, 2, 1, none, none, "S1", 2024, none, true⟩] },
        ⟨5, 2, 2, 1, none, none, "S1", 2024, none, true⟩) := by
  refine ⟨?_, ?_, ?_⟩
  · exact (createSchedule_duplicate_then_occupancy dbBase
      ⟨1, 1, 1, none, none, "S1", 2024, none⟩ 5
      (by decide) (by decide) (by decide) (by decide)).1
      ⟨schedMon, by decide, by decide⟩
  · obtain ⟨msg, -⟩ := (createSchedule_duplicate_then_occupancy dbBase
      ⟨2, 1, 1, none, none, "S1", 2024, none⟩ 5
      (by decide) (by decide) (by decide) (by decide)).2.1
      (by decide) ⟨schedMon, by decide, by decide⟩
    rfl
  · obtain ⟨sched, -⟩ := (createSchedule_duplicate_then_occupancy dbBase
      ⟨2, 2, 1, none, none, "S1", 2024, none⟩ 5
      (by decide) (by decide) (by decide) (by decide)).2.2
      (by decide) (by decide)
    rfl

/-- C4: a `updateSchedule` call supplying only `maxCapacity`: a new capacity
strictly below the schedule's current APPROVED enrollment count fails with a
400 validation error whose message carries that count (the error is thrown
before any store write, so the stored schedule is unchanged); a new capacity
equal to or above the count makes the capacity update succeed. -/
theorem updateSchedule_capacity_guard (db : DB) (id : Nat) (v : Int)
    (sched : Schedule)
    (hf : db.schedules.find? (fun s => s.id == id) = some sched) :
    (v < ((scheduleNonTerminalEnrollments db sched.id).filter
        (fun e => e.status == .APPROVED)).length →
      updateSchedule db id ⟨none, none, some v, none, none⟩ =
        .error ⟨"Cannot set capacity below current approved enrollments (" ++
          toString ((scheduleNonTerminalEnrollments db sched.id).filter
            (fun e => e.status == .APPROVED)).length ++ ")", 400⟩) ∧
    ((((scheduleNonTerminalEnrollments db sched.id).filter
        (fun e => e.status == .APPROVED)).length : Int) ≤ v →
      updateSchedule db id ⟨none, none, some v, none, none⟩ =
        .ok ({ db with schedules :=
            db.schedules.map (fun s => if s.id == id then { sched with maxCapacity := some v } else s) },
          { sched with maxCapacity := some v })) := by
  constructor
  · intro hlt
    simp [updateSchedule, hf, truthyId, throw, throwThe, MonadExceptOf.throw,
      Bind.bind, Except.bind, Functor.map, Except.map, Pure.pure, Except.pure,
      if_pos hlt]
  · intro hge
    simp [updateSchedule, hf, truthyId, throw, throwThe, MonadExceptOf.throw,
      Bind.bind, Except.bind, Functor.map, Except.map, Pure.pure, Except.pure,
      if_neg (not_lt.mpr hge)]

/-- Witness for C4: schedule 1 in the enrolled store has one APPROVED
enrollment; lowering capacity to 0 fails with the count in the message,
setting it to exactly 1 succeeds. -/
theorem updateSchedule_capacity_guard_witness :
    updateSchedule dbEnrolled 1 ⟨none, none, some 0, none, none⟩ =
      .error ⟨"Cannot set capacity below current approved enrollments (1)", 400⟩ ∧
    updateSchedule dbEnrolled 1 ⟨none, none, some 1, none, none⟩ =
      .ok ({ dbEnrolled with schedules :=
          dbEnrolled.schedules.map (fun s => if s.id == 1 then { schedMon with maxCapacity := some 1 } else s) },
        { schedMon with maxCapacity := some 1 }) := by
  constructor
  · exact (updateSchedule_capacity_guard dbEnrolled 1 0 schedMon (by decide)).1
      (by decide)
  · exact (updateSchedule_capacity_guard dbEnrolled 1 1 schedMon (by decide)).2
      (by decide)

/-- C5: when the loaded schedule has at least one non-terminal (PENDING,
APPROVED or WAITLISTED) enrollment, any `updateSchedule` request supplying a
(truthy) `timeSlotId` or `dayId` fails with the 400 validation error; the
error is thrown before any store write, so the schedule's time slot and day
are unchanged. -/
theorem updateSchedule_timeDay_immutable (db : DB) (id : Nat)
    (data : UpdateScheduleInput) (sched : Schedule)
    (hf : db.schedules.find? (fun s => s.id == id) = some sched)
    (hn : scheduleNonTerminalEnrollments db sched.id ≠ [])
    (hsupply : truthyId data.timeSlotId = true ∨ truthyId data.dayId = true) :
    updateSchedule db id data =
      .error ⟨"Cannot change time or day for schedule with active enrollments", 400⟩ := by
  have hlen : ((scheduleNonTerminalEnrollments db sched.id).length > 0) :=
    List.length_pos.mpr hn
  have hcond : (decide ((scheduleNonTerminalEnrollments db sched.id).length > 0) &&
      (truthyId data.timeSlotId || truthyId data.dayId)) = true := by
    rcases hsupply with h | h <;> simp [hlen, h]
  simp [updateSchedule, hf, hcond, throw, throwThe, MonadExceptOf.throw,
    Bind.bind, Except.bind, Functor.map, Except.map, Pure.pure, Except.pure]

/-- Witness for C5: schedule 1 in the enrolled store has non-terminal
enrollments, so moving it to time slot 2 is rejected 400. -/
theorem updateSchedule_timeDay_immutable_witness :
    updateSchedule dbEnrolled 1 ⟨none, none, none, some 2, none⟩ =
      .error ⟨"Cannot change time or day for schedule with active enrollments", 400⟩ :=
  updateSchedule_timeDay_immutable dbEnrolled 1 ⟨none, none, none, some 2, none⟩
    schedMon (by decide) (by decide) (Or.inl (by decide))

/-- C7: when all four required query keys of the conflict probe are present
(truthy): a 409 conflict raised by the service check is converted to an HTTP
200 success carrying `hasConflict: true` and the conflict message; a silent
(no-conflict) resolution yields 200 with `hasConflict: false`; and no error
the probe surfaces to the error middleware is a conflict (status 409). -/
theorem conflictProbe_converts_conflicts (db : DB) (tsId dayId : Nat)
    (sem : String) (yr : Int) (ex : Option Nat)
    (hreq : ¬(tsId = 0 ∨ dayId = 0 ∨ sem = "" ∨ yr = 0)) :
    (∀ e, checkScheduleConflicts db tsId dayId sem yr ex = .error e →
      controllerCheckScheduleConflicts db tsId dayId sem yr ex =
        .ok ⟨200, true, "Schedule conflict detected", true, some e.message⟩) ∧
    (checkScheduleConflicts db tsId dayId sem yr ex = .ok PUnit.unit →
      controllerCheckScheduleConflicts db tsId dayId sem yr ex =
        .ok ⟨200, true, "No schedule conflicts found", false, none⟩) ∧
    (∀ e, controllerCheckScheduleConflicts db tsId dayId sem yr ex = .error e →
      e.statusCode ≠ 409) := by
  refine ⟨?_, ?_, ?_⟩
  · intro e he
    have h409 := checkScheduleConflicts_error_code he
    simp [controllerCheckScheduleConflicts, if_neg hreq, he, h409]
  · intro hok
    simp [controllerCheckScheduleConflicts, if_neg hreq, hok]
  · intro e he
    exfalso
    rw [controllerCheckScheduleConflicts, if_neg hreq] at he
    cases hres : checkScheduleConflicts db tsId dayId sem yr ex with
    | ok u =>
      rw [hres] at he
      cases he
    | error e2 =>
      have h409 := checkScheduleConflicts_error_code hres
      rw [hres] at he
      simp [h409] at he

/-- Witness for C7: slot 1 on Monday S1/2024 is occupied, so the probe
answers 200 with the conflict message; slot 2 is free, so the probe answers
200 with no conflict. -/
theorem conflictProbe_converts_conflicts_witness :
    controllerCheckScheduleConflicts dbBase 1 1 "S1" 2024 none =
      .ok ⟨200, true, "Schedule conflict detected", true,
        some "Schedule conflicts with existing schedules: U1 on Monday at A"⟩ ∧
    controllerCheckScheduleConflicts dbBase 2 1 "S1" 2024 none =
      .ok ⟨200, true, "No schedule conflicts found", false, none⟩ := by
  constructor
  · exact (conflictProbe_converts_conflicts dbBase 1 1 "S1" 2024 none (by decide)).1
      ⟨"Schedule conflicts with existing schedules: U1 on Monday at A", 409⟩ (by rfl)
  · exact (conflictProbe_converts_conflicts dbBase 2 1 "S1" 2024 none (by decide)).2.1
      (by rfl)

/-- C10: at the schedule-creation controller, an input `maxCapacity` of 0 is
not rejected by the positive-capacity validation (the check fires only for
truthy values ≤ 0, and 0 is falsy); when the remaining validations and
conflict checks pass, the schedule is persisted with `maxCapacity` NULL
(`maxCapacity ? parseInt(maxCapacity) : null`), so its effective capacity
silently falls back to the parent unit's base capacity. -/
theorem createSchedule_zeroCapacity_fallback (db : DB)
    (data : CreateScheduleInput) (newId : Nat) (u : Unit)
    (hcap : data.maxCapacity = some 0)
    (hreq : ¬(data.unitId = 0 ∨ data.timeSlotId = 0 ∨ data.dayId = 0 ∨
      data.semester = "" ∨ data.academicYear = 0))
    (hu : db.units.find? (fun w => w.id == data.unitId && w.isActive) = some u)
    (hts : (db.timeSlots.find? fun t =>
      t.id == data.timeSlotId && t.isActive).isSome = true)
    (hd : (db.days.find? fun d => d.id == data.dayId).isSome = true)
    (hdup : ¬ exactDuplicateExists db data)
    (hocc : ¬ slotOccupied db data.timeSlotId data.dayId data.semester
      data.academicYear) :
    capacityValidationRejects data.maxCapacity = false ∧
    ∃ sched, controllerCreateSchedule db data newId =
      .ok ({ db with schedules := db.schedules ++ [sched] }, sched) ∧
      sched.maxCapacity = none ∧
      effectiveCapacity sched.maxCapacity u.capacity = u.capacity := by
  have hrej : capacityValidationRejects data.maxCapacity = false := by
    simp [capacityValidationRejects, hcap]
  refine ⟨hrej, ?_⟩
  obtain ⟨t, hts⟩ := Option.isSome_iff_exists.mp hts
  obtain ⟨d, hd⟩ := Option.isSome_iff_exists.mp hd
  have hfind : (db.schedules.find? fun s =>
      s.unitId == data.unitId && s.timeSlotId == data.timeSlotId &&
      s.dayId == data.dayId && s.semester == data.semester &&
      s.academicYear == data.academicYear && s.isActive) = none := by
    cases hcase : db.schedules.find? fun s =>
        s.unitId == data.unitId && s.timeSlotId == data.timeSlotId &&
        s.dayId == data.dayId && s.semester == data.semester &&
        s.academicYear == data.academicYear && s.isActive
    · rfl
    · exact absurd (exactDuplicateExists_iff_findSome.mpr (by simp [hcase])) hdup
  have hq : scheduleConflictQuery db data.timeSlotId data.dayId data.semester
      data.academicYear none = [] := by
    by_contra hne
    exact hocc (slotOccupied_iff_query_ne_nil.mpr hne)
  have hok := checkScheduleConflicts_ok_iff.mpr hq
  refine ⟨{ id := newId
            unitId := data.unitId
            timeSlotId := data.timeSlotId
            dayId := data.dayId
            tutorName := match data.tutorName with
              | some s => if s ≠ "" then some s else none
              | none => none
            location := match data.location with
              | some s => if s ≠ "" then some s else none
              | none => none
            semester := data.semester
            academicYear := data.academicYear
            maxCapacity := none
            isActive := true }, ?_, rfl, rfl⟩
  simp [controllerCreateSchedule, if_neg hreq, hrej, capacityValidationRejects,
    createSchedule, hu, hts, hd,
    hfind, hok, hcap, throw, throwThe, MonadExceptOf.throw, Bind.bind,
    Except.bind, Functor.map, Except.map, Pure.pure, Except.pure]

/-- Witness for C10: creating unit 2 on the free slot 2, Monday S1/2024 with
`maxCapacity` 0 passes the controller validation and persists the schedule
with a NULL capacity override, so unit 2's base capacity 25 applies. -/
theorem createSchedule_zeroCapacity_fallback_witness :
    capacityValidationRejects (some 0) = false ∧
    controllerCreateSchedule dbBase ⟨2, 2, 1, none, none, "S1", 2024, some 0⟩ 5 =
      .ok ({ dbBase with schedules :=
          dbBase.schedules ++ [⟨5, 2, 2, 1, none, none, "S1", 2024, none, true⟩] },
        ⟨5, 2, 2, 1, none, none, "S1", 2024, none, true⟩) ∧
    effectiveCapacity none unitU2.capacity = unitU2.capacity := by
  obtain ⟨h1, sched, h2, h3, h4⟩ := createSchedule_zeroCapacity_fallback dbBase
    ⟨2, 2, 1, none, none, "S1", 2024, some 0⟩ 5 unitU2 rfl (by decide) (by decide)
    (by decide) (by decide) (by decide) (by decide)
  exact ⟨h1, by rfl, by rfl⟩

/-- Bound lemma: for a positive capacity at least the approved count, the
computed rate is a finite integer in `[0, 100]`. -/
theorem utilizationRate_in_range (a : Nat) (c : Int) (hc : 0 < c)
    (hle : (a : Int) ≤ c) :
    ∃ r, utilizationRate a c = some r ∧ 0 ≤ r ∧ r ≤ 100 := by
  have hc0 : c ≠ 0 := hc.ne'
  have hcq : (0 : ℚ) < (c : ℚ) := by exact_mod_cast hc
  have hleq : (a : ℚ) ≤ (c : ℚ) := by exact_mod_cast hle
  have hdiv1 : (a : ℚ) / (c : ℚ) ≤ 1 := (div_le_one hcq).mpr hleq
  have hdiv0 : (0 : ℚ) ≤ (a : ℚ) / (c : ℚ) := by positivity
  refine ⟨jsRound ((a : ℚ) / (c : ℚ) * 100), by simp [utilizationRate, hc0], ?_, ?_⟩
  · unfold jsRound
    exact Int.le_floor.mpr (by push_cast; linarith)
  · unfold jsRound
    have hfl : ((⌊(a : ℚ) / (c : ℚ) * 100 + 1 / 2⌋ : Int) : ℚ) ≤
        (a : ℚ) / (c : ℚ) * 100 + 1 / 2 := Int.floor_le _
    have h101 : ((⌊(a : ℚ) / (c : ℚ) * 100 + 1 / 2⌋ : Int) : ℚ) < 101 :=
      lt_of_le_of_lt hfl (by linarith)
    have : (⌊(a : ℚ) / (c : ℚ) * 100 + 1 / 2⌋ : Int) < 101 := by exact_mod_cast h101
    omega

/-- Unfolding lemma: the reported rate is the rate of the reported approved
count and capacity. -/
theorem scheduleEnrollmentStats_rate_eq (db : DB) (s : Schedule) :
    (scheduleEnrollmentStats db s).utilizationRate =
      utilizationRate (scheduleEnrollmentStats db s).approvedEnrollments
        (scheduleEnrollmentStats db s).capacity := rfl

/-- Counterexample for C3: in a store whose unit has base capacity 1 and
whose schedule carries two APPROVED enrollments, the schedule is returned by
the list read with effective capacity 1 > 0 yet `utilizationRate` 200, which
is not in `[0, 100]`; and in a store whose unit has base capacity 0, the
schedule's reported rate is not the claimed 0 — the division is unguarded
and in JS produces `NaN`, no finite integer at all (modelled as `none`). -/
theorem utilizationRate_claim_counterexample :
    (schedSmall, scheduleEnrollmentStats dbOver schedSmall) ∈
      getAllSchedulesStats dbOver ∧
    (scheduleEnrollmentStats dbOver schedSmall).capacity = 1 ∧
    (scheduleEnrollmentStats dbOver schedSmall).utilizationRate = some 200 ∧
    ¬((200 : Int) ≤ 100) ∧
    (scheduleEnrollmentStats dbZero schedZero).capacity = 0 ∧
    (scheduleEnrollmentStats dbZero schedZero).utilizationRate = none := by
  refine ⟨?_, by decide, ?_, by norm_num, by decide, ?_⟩
  · simp [getAllSchedulesStats, dbOver, schedSmall]
  · rw [scheduleEnrollmentStats_rate_eq,
      show (scheduleEnrollmentStats dbOver schedSmall).approvedEnrollments = 2
        from by decide,
      show (scheduleEnrollmentStats dbOver schedSmall).capacity = 1 from by decide]
    norm_num [utilizationRate, jsRound]
  · rw [scheduleEnrollmentStats_rate_eq,
      show (scheduleEnrollmentStats dbZero schedZero).approvedEnrollments = 0
        from by decide,
      show (scheduleEnrollmentStats dbZero schedZero).capacity = 0 from by decide]
    norm_num [utilizationRate]

/-- C3 (amended): for every schedule carried by the list/detail reads, when
the effective capacity is non-zero the reported utilizationRate equals
`round(approvedCount / capacity × 100)` (JS `Math.round`, half toward
positive infinity); it is an integer in `[0, 100]` when additionally the
approved count does not exceed the capacity; when the effective capacity is
0 the division is NOT guarded in these two read paths, and the JS result is
`NaN`/`Infinity` — no finite integer (modelled `none`) — rather than the 0
the original claim states. -/
theorem utilizationRate_amended_bounds (db : DB) (s : Schedule) :
    ((scheduleEnrollmentStats db s).capacity ≠ 0 →
      (scheduleEnrollmentStats db s).utilizationRate =
        some (jsRound (((scheduleEnrollmentStats db s).approvedEnrollments : ℚ) /
          ((scheduleEnrollmentStats db s).capacity : ℚ) * 100))) ∧
    (0 < (scheduleEnrollmentStats db s).capacity →
      ((scheduleEnrollmentStats db s).approvedEnrollments : Int) ≤
        (scheduleEnrollmentStats db s).capacity →
      ∃ r, (scheduleEnrollmentStats db s).utilizationRate = some r ∧
        0 ≤ r ∧ r ≤ 100) ∧
    ((scheduleEnrollmentStats db s).capacity = 0 →
      (scheduleEnrollmentStats db s).utilizationRate = none) := by
  refine ⟨?_, ?_, ?_⟩
  · intro h
    simp only [scheduleEnrollmentStats] at h ⊢
    simp [utilizationRate, h]
  · intro hc hle
    simp only [scheduleEnrollmentStats] at hc hle ⊢
    exact utilizationRate_in_range _ _ hc hle
  · intro h
    simp only [scheduleEnrollmentStats] at h ⊢
    simp [utilizationRate, h]

/-- Witness for C3 (amended): schedule 1 of the enrolled store has capacity
30 and one approved enrollment, so its reported rate is
`round(1/30 × 100) = 3`; the zero-capacity schedule reports no finite
rate. -/
theorem utilizationRate_amended_bounds_witness :
    (scheduleEnrollmentStats dbEnrolled schedMon).utilizationRate = some 3 ∧
    (scheduleEnrollmentStats dbZero schedZero).utilizationRate = none := by
  constructor
  · have h := (utilizationRate_amended_bounds dbEnrolled schedMon).1 (by decide)
    rw [h,
      show (scheduleEnrollmentStats dbEnrolled schedMon).approvedEnrollments = 1
        from by decide,
      show (scheduleEnrollmentStats dbEnrolled schedMon).capacity = 30 from by decide]
    norm_num [jsRound]
  · exact (utilizationRate_amended_bounds dbZero schedZero).2.2 (by decide)

end Cihe
